import Mathlib

/-!
Verification of the ESIPie configuration schema.

The repository declares four environment-variable-driven settings groups
(UAConfig, APIConfig, AuthConfig, CacheConfig) and an aggregate Config
composing them, in src/esipie/config.py.  The field names, environment
key names (group prefix plus upper-cased field name), required flags,
defaults and frozen flags below are transcribed from that file.  The
generic loading semantics (environment binding, the ignore-empty policy,
batch validation, type coercion, rejection of assignment to frozen
fields) are supplied by the pydantic-settings framework, whose code is
not part of this repository; those parts are modelled from the spec, as
marked on each definition.
-/

/-- An environment snapshot: a finite mapping from variable names to
string values, represented as an association list where the first
binding for a key wins. -/
abbrev Env := List (String × String)

/-- Raw lookup of a variable in an environment snapshot. -/
def lookupEnv : Env → String → Option String
  | [], _ => none
  | (k, v) :: rest, key => if k = key then some v else lookupEnv rest key

/-- Modelled from the spec: reading one environment variable under the
ignore-empty policy that every settings group enables in its model
configuration.  When ignoreEmpty is true, a variable bound to the empty
string is treated exactly as if it were absent. -/
def getEnv (ignoreEmpty : Bool) (env : Env) (key : String) : Option String :=
  match lookupEnv env key with
  | none => none
  | some v => if ignoreEmpty = true ∧ v = "" then none else some v

/-- Remove every binding of a key from an environment snapshot. -/
def unsetEnv : Env → String → Env
  | [], _ => []
  | (a, b) :: rest, k => if a = k then unsetEnv rest k else (a, b) :: unsetEnv rest k

/-- Bind a key to a value in an environment snapshot, replacing any
previous binding. -/
def setEnv (env : Env) (k v : String) : Env :=
  (k, v) :: unsetEnv env k

/-- Reason a field fails validation: the variable of a required field is
absent, or a present value fails type coercion. -/
inductive ErrReason where
  | missing
  | coercionFailed
deriving DecidableEq, Repr

/-- One entry of a validation report: the field name and the reason it
failed. -/
structure FieldError where
  field : String
  reason : ErrReason
deriving DecidableEq, Repr

/-- Modelled from the spec: loading a required string field.  The value
is taken verbatim when the variable is present and non-empty; otherwise
the field is reported missing. -/
def reqStr (env : Env) (key fieldName : String) : Except FieldError String :=
  match getEnv true env key with
  | some v => Except.ok v
  | none => Except.error ⟨fieldName, ErrReason.missing⟩

/-- Modelled from the spec: loading an optional string field.  A present
non-empty value passes through verbatim; otherwise the declared default
is used.  String fields cannot fail coercion. -/
def optStr (env : Env) (key dflt : String) : String :=
  (getEnv true env key).getD dflt

/-- Value of a decimal digit character, if the character is one. -/
def charDigit (c : Char) : Option Nat :=
  if '0' ≤ c ∧ c ≤ '9' then some (c.toNat - '0'.toNat) else none

/-- Read a run of decimal digits into an accumulator; fails on any
non-digit character. -/
def parseDigits : List Char → Nat → Option Nat
  | [], acc => some acc
  | c :: rest, acc =>
    match charDigit c with
    | some d => parseDigits rest (acc * 10 + d)
    | none => none

/-- Modelled from the spec: base-10 integer coercion of a string, with
an optional leading minus sign. -/
def parseInt (s : String) : Option Int :=
  match s.data with
  | [] => none
  | '-' :: [] => none
  | '-' :: c :: rest => (parseDigits (c :: rest) 0).map (fun n => -(n : Int))
  | cs => (parseDigits cs 0).map (fun n => (n : Int))

/-- Lower-case an ASCII letter, leaving other characters unchanged. -/
def lowerChar (c : Char) : Char :=
  if 'A' ≤ c ∧ c ≤ 'Z' then Char.ofNat (c.toNat + 32) else c

/-- Lower-case every character of a string. -/
def lowerStr (s : String) : String :=
  String.mk (s.data.map lowerChar)

/-- Modelled from the spec: loading an optional integer field.  A
present value must parse as a base-10 integer; an absent variable yields
the declared default. -/
def optInt (env : Env) (key fieldName : String) (dflt : Int) : Except FieldError Int :=
  match getEnv true env key with
  | none => Except.ok dflt
  | some v =>
    match parseInt v with
    | some n => Except.ok n
    | none => Except.error ⟨fieldName, ErrReason.coercionFailed⟩

/-- Modelled from the spec: boolean coercion accepts the literal true
and false tokens case-insensitively. -/
def parseBool (v : String) : Option Bool :=
  if lowerStr v = "true" then some true
  else if lowerStr v = "false" then some false
  else none

/-- Modelled from the spec: loading an optional boolean field. -/
def optBool (env : Env) (key fieldName : String) (dflt : Bool) : Except FieldError Bool :=
  match getEnv true env key with
  | none => Except.ok dflt
  | some v =>
    match parseBool v with
    | some b => Except.ok b
    | none => Except.error ⟨fieldName, ErrReason.coercionFailed⟩

/-- Collect the error of one field result, if any, for batch reporting. -/
def errsOf {α : Type} : Except FieldError α → List FieldError
  | Except.ok _ => []
  | Except.error e => [e]

/-- Collect the errors of one settings-group result, if any. -/
def errsL {α : Type} : Except (List FieldError) α → List FieldError
  | Except.ok _ => []
  | Except.error es => es

/-- The User-Agent settings group, from UAConfig in config.py: three
required string fields, all frozen, environment keys under the
ESIPIE_UA_ group key head. -/
structure UAConfig where
  app_name : String
  app_version : String
  contact_email : String
deriving DecidableEq, Repr

/-- Modelled from the spec: construction of UAConfig from an
environment snapshot, with batch validation of the three required
fields. -/
def UAConfig.load (env : Env) : Except (List FieldError) UAConfig :=
  match reqStr env "ESIPIE_UA_APP_NAME" "app_name",
      reqStr env "ESIPIE_UA_APP_VERSION" "app_version",
      reqStr env "ESIPIE_UA_CONTACT_EMAIL" "contact_email" with
  | Except.ok x, Except.ok y, Except.ok z => Except.ok ⟨x, y, z⟩
  | a, b, c => Except.error (errsOf a ++ errsOf b ++ errsOf c)

/-- The API settings group, from APIConfig in config.py: three optional
fields with defaults; base_url and timeout_seconds are frozen. -/
structure APIConfig where
  base_url : String
  timeout_seconds : Int
  compatibility_date : String
deriving DecidableEq, Repr

/-- Modelled from the spec: construction of APIConfig from an
environment snapshot. -/
def APIConfig.load (env : Env) : Except (List FieldError) APIConfig :=
  match optInt env "ESIPIE_TIMEOUT_SECONDS" "timeout_seconds" 10 with
  | Except.ok tv =>
    Except.ok ⟨optStr env "ESIPIE_BASE_URL" "https://esi.evetech.net", tv,
      optStr env "ESIPIE_COMPATIBILITY_DATE" "2025-09-26"⟩
  | Except.error e => Except.error [e]

/-- The Auth settings group, from AuthConfig in config.py: two required
and two defaulted string fields, all frozen. -/
structure AuthConfig where
  sso_client_id : String
  sso_client_secret : String
  openapi_url : String
  client_tenant : String
deriving DecidableEq, Repr

/-- Modelled from the spec: construction of AuthConfig from an
environment snapshot, with batch validation of the two required
fields. -/
def AuthConfig.load (env : Env) : Except (List FieldError) AuthConfig :=
  match reqStr env "ESIPIE_SSO_CLIENT_ID" "sso_client_id",
      reqStr env "ESIPIE_SSO_CLIENT_SECRET" "sso_client_secret" with
  | Except.ok iv, Except.ok sv =>
    Except.ok ⟨iv, sv, optStr env "ESIPIE_OPENAPI_URL"
      "https://esipie.api.esi.evetech.net/openapi.json",
      optStr env "ESIPIE_CLIENT_TENANT" "tranquility"⟩
  | i, s => Except.error (errsOf i ++ errsOf s)

/-- The Cache settings group, from CacheConfig in config.py: four
optional fields with defaults; redis_url and the cache key head are
frozen. -/
structure CacheConfig where
  redis_url : String
  spec_cache_duration : Int
  disable_cache : Bool
  cache_prefix : String
deriving DecidableEq, Repr

/-- Modelled from the spec: construction of CacheConfig from an
environment snapshot, with batch validation of the coercible fields. -/
def CacheConfig.load (env : Env) : Except (List FieldError) CacheConfig :=
  match optInt env "ESIPIE_SPEC_CACHE_DURATION" "spec_cache_duration" 3600,
      optBool env "ESIPIE_DISABLE_CACHE" "disable_cache" false with
  | Except.ok dv, Except.ok dcv =>
    Except.ok ⟨optStr env "ESIPIE_REDIS_URL" "redis://localhost:6379/0", dv, dcv,
      optStr env "ESIPIE_CACHE_PREFIX" "esipie"⟩
  | d, dc => Except.error (errsOf d ++ errsOf dc)

/-- The aggregate settings object, from Config in config.py: composes
one instance of each group, each built from the same environment
snapshot via its default factory. -/
structure Config where
  api : APIConfig
  auth : AuthConfig
  ua : UAConfig
  cache : CacheConfig
deriving DecidableEq, Repr

/-- Modelled from the spec: construction of the aggregate Config.  Each
member group is constructed eagerly; a failure in any member makes the
aggregate construction fail. -/
def Config.load (env : Env) : Except (List FieldError) Config :=
  match APIConfig.load env, AuthConfig.load env, UAConfig.load env, CacheConfig.load env with
  | Except.ok av, Except.ok uv, Except.ok gv, Except.ok cv => Except.ok ⟨av, uv, gv, cv⟩
  | a, u, g, c => Except.error (errsL a ++ errsL u ++ errsL g ++ errsL c)

/-- Environment keys read by UAConfig. -/
def uaKeys : List String :=
  ["ESIPIE_UA_APP_NAME", "ESIPIE_UA_APP_VERSION", "ESIPIE_UA_CONTACT_EMAIL"]

/-- Environment keys read by APIConfig. -/
def apiKeys : List String :=
  ["ESIPIE_BASE_URL", "ESIPIE_TIMEOUT_SECONDS", "ESIPIE_COMPATIBILITY_DATE"]

/-- Environment keys read by AuthConfig. -/
def authKeys : List String :=
  ["ESIPIE_SSO_CLIENT_ID", "ESIPIE_SSO_CLIENT_SECRET", "ESIPIE_OPENAPI_URL",
   "ESIPIE_CLIENT_TENANT"]

/-- Environment keys read by CacheConfig. -/
def cacheKeys : List String :=
  ["ESIPIE_REDIS_URL", "ESIPIE_SPEC_CACHE_DURATION", "ESIPIE_DISABLE_CACHE",
   "ESIPIE_CACHE_PREFIX"]

/-- Outcome of an attempted attribute assignment on a constructed
settings object.  The rejected constructor models the validation error
pydantic raises on assignment to a frozen field; it carries the state of
the object after the error, which the frozen mechanism leaves untouched. -/
inductive SetOutcome (α : Type) where
  | assigned : α → SetOutcome α
  | rejected : α → SetOutcome α
deriving DecidableEq, Repr

/-- The fields of UAConfig. -/
inductive UAField where
  | app_name
  | app_version
  | contact_email
deriving DecidableEq, Repr

/-- Frozen flags of UAConfig fields, from config.py: every field is
declared with frozen set to true. -/
def UAField.frozen : UAField → Bool
  | _ => true

/-- Write a value into a UAConfig field, ignoring frozen flags. -/
def UAConfig.rawSet (c : UAConfig) : UAField → String → UAConfig
  | UAField.app_name, v => { c with app_name := v }
  | UAField.app_version, v => { c with app_version := v }
  | UAField.contact_email, v => { c with contact_email := v }

/-- Modelled from the spec: attempted post-construction assignment to a
UAConfig field.  Assignment to a frozen field is rejected before any
mutation; other assignments take effect. -/
def UAConfig.trySet (c : UAConfig) (f : UAField) (v : String) : SetOutcome UAConfig :=
  if UAField.frozen f then SetOutcome.rejected c
  else SetOutcome.assigned (UAConfig.rawSet c f v)

/-- The fields of APIConfig. -/
inductive APIField where
  | base_url
  | timeout_seconds
  | compatibility_date
deriving DecidableEq, Repr

/-- Frozen flags of APIConfig fields, from config.py. -/
def APIField.frozen : APIField → Bool
  | APIField.base_url => true
  | APIField.timeout_seconds => true
  | APIField.compatibility_date => false

/-- The declared type of each APIConfig field. -/
def APIField.ty : APIField → Type
  | APIField.timeout_seconds => Int
  | _ => String

/-- Write a value into an APIConfig field, ignoring frozen flags. -/
def APIConfig.rawSet (c : APIConfig) : (f : APIField) → APIField.ty f → APIConfig
  | APIField.base_url, v => { c with base_url := v }
  | APIField.timeout_seconds, v => { c with timeout_seconds := v }
  | APIField.compatibility_date, v => { c with compatibility_date := v }

/-- Modelled from the spec: attempted post-construction assignment to an
APIConfig field. -/
def APIConfig.trySet (c : APIConfig) (f : APIField) (v : APIField.ty f) : SetOutcome APIConfig :=
  if APIField.frozen f then SetOutcome.rejected c
  else SetOutcome.assigned (APIConfig.rawSet c f v)

/-- The fields of AuthConfig. -/
inductive AuthField where
  | sso_client_id
  | sso_client_secret
  | openapi_url
  | client_tenant
deriving DecidableEq, Repr

/-- Frozen flags of AuthConfig fields, from config.py: every field is
declared with frozen set to true. -/
def AuthField.frozen : AuthField → Bool
  | _ => true

/-- Write a value into an AuthConfig field, ignoring frozen flags. -/
def AuthConfig.rawSet (c : AuthConfig) : AuthField → String → AuthConfig
  | AuthField.sso_client_id, v => { c with sso_client_id := v }
  | AuthField.sso_client_secret, v => { c with sso_client_secret := v }
  | AuthField.openapi_url, v => { c with openapi_url := v }
  | AuthField.client_tenant, v => { c with client_tenant := v }

/-- Modelled from the spec: attempted post-construction assignment to an
AuthConfig field. -/
def AuthConfig.trySet (c : AuthConfig) (f : AuthField) (v : String) : SetOutcome AuthConfig :=
  if AuthField.frozen f then SetOutcome.rejected c
  else SetOutcome.assigned (AuthConfig.rawSet c f v)

/-- The fields of CacheConfig. -/
inductive CacheField where
  | redis_url
  | spec_cache_duration
  | disable_cache
  | cache_prefix
deriving DecidableEq, Repr

/-- Frozen flags of CacheConfig fields, from config.py. -/
def CacheField.frozen : CacheField → Bool
  | CacheField.redis_url => true
  | CacheField.spec_cache_duration => false
  | CacheField.disable_cache => false
  | CacheField.cache_prefix => true

/-- The declared type of each CacheConfig field. -/
def CacheField.ty : CacheField → Type
  | CacheField.spec_cache_duration => Int
  | CacheField.disable_cache => Bool
  | _ => String

/-- Write a value into a CacheConfig field, ignoring frozen flags. -/
def CacheConfig.rawSet (c : CacheConfig) : (f : CacheField) → CacheField.ty f → CacheConfig
  | CacheField.redis_url, v => { c with redis_url := v }
  | CacheField.spec_cache_duration, v => { c with spec_cache_duration := v }
  | CacheField.disable_cache, v => { c with disable_cache := v }
  | CacheField.cache_prefix, v => { c with cache_prefix := v }

/-- Modelled from the spec: attempted post-construction assignment to a
CacheConfig field. -/
def CacheConfig.trySet (c : CacheConfig) (f : CacheField) (v : CacheField.ty f) :
    SetOutcome CacheConfig :=
  if CacheField.frozen f then SetOutcome.rejected c
  else SetOutcome.assigned (CacheConfig.rawSet c f v)

/-! Helper lemmas about environment snapshots and the loaders. -/

/-- After unsetting a key, looking it up yields nothing. -/
theorem lookupEnv_unset_self (env : Env) (k : String) :
    lookupEnv (unsetEnv env k) k = none := by
  induction env with
  | nil => rfl
  | cons p rest ih =>
    rcases p with ⟨a, b⟩
    by_cases hak : a = k
    · simp [unsetEnv, hak, ih]
    · simp [unsetEnv, hak, lookupEnv, ih]

/-- Unsetting one key does not change the lookup of any other key. -/
theorem lookupEnv_unset_ne (env : Env) (k key : String) (h : key ≠ k) :
    lookupEnv (unsetEnv env k) key = lookupEnv env key := by
  induction env with
  | nil => rfl
  | cons p rest ih =>
    rcases p with ⟨a, b⟩
    by_cases hak : a = k
    · subst hak
      simp [unsetEnv, lookupEnv, ih, Ne.symm h]
    · simp [unsetEnv, hak, lookupEnv, ih]

/-- Unsetting one key does not change the effective value of any other
key. -/
theorem getEnv_unset_ne (env : Env) (k key : String) (h : key ≠ k) :
    getEnv true (unsetEnv env k) key = getEnv true env key := by
  unfold getEnv
  rw [lookupEnv_unset_ne env k key h]

/-- Under the ignore-empty policy, binding a key to the empty string is
observationally the same as unsetting it. -/
theorem getEnv_set_empty (env : Env) (k key : String) :
    getEnv true (setEnv env k "") key = getEnv true (unsetEnv env k) key := by
  by_cases h : key = k
  · subst h
    simp [getEnv, setEnv, lookupEnv, lookupEnv_unset_self]
  · simp [getEnv, setEnv, lookupEnv, Ne.symm h]

/-- UAConfig construction depends only on the UA environment keys. -/
theorem uaLoad_congr (env1 env2 : Env)
    (h : ∀ k ∈ uaKeys, getEnv true env1 k = getEnv true env2 k) :
    UAConfig.load env1 = UAConfig.load env2 := by
  have h1 := h "ESIPIE_UA_APP_NAME" (by simp [uaKeys])
  have h2 := h "ESIPIE_UA_APP_VERSION" (by simp [uaKeys])
  have h3 := h "ESIPIE_UA_CONTACT_EMAIL" (by simp [uaKeys])
  unfold UAConfig.load reqStr
  rw [h1, h2, h3]

/-- APIConfig construction depends only on the API environment keys. -/
theorem apiLoad_congr (env1 env2 : Env)
    (h : ∀ k ∈ apiKeys, getEnv true env1 k = getEnv true env2 k) :
    APIConfig.load env1 = APIConfig.load env2 := by
  have h1 := h "ESIPIE_BASE_URL" (by simp [apiKeys])
  have h2 := h "ESIPIE_TIMEOUT_SECONDS" (by simp [apiKeys])
  have h3 := h "ESIPIE_COMPATIBILITY_DATE" (by simp [apiKeys])
  unfold APIConfig.load optStr optInt
  rw [h1, h2, h3]

/-- AuthConfig construction depends only on the Auth environment keys. -/
theorem authLoad_congr (env1 env2 : Env)
    (h : ∀ k ∈ authKeys, getEnv true env1 k = getEnv true env2 k) :
    AuthConfig.load env1 = AuthConfig.load env2 := by
  have h1 := h "ESIPIE_SSO_CLIENT_ID" (by simp [authKeys])
  have h2 := h "ESIPIE_SSO_CLIENT_SECRET" (by simp [authKeys])
  have h3 := h "ESIPIE_OPENAPI_URL" (by simp [authKeys])
  have h4 := h "ESIPIE_CLIENT_TENANT" (by simp [authKeys])
  unfold AuthConfig.load reqStr optStr
  rw [h1, h2, h3, h4]

/-- CacheConfig construction depends only on the Cache environment
keys. -/
theorem cacheLoad_congr (env1 env2 : Env)
    (h : ∀ k ∈ cacheKeys, getEnv true env1 k = getEnv true env2 k) :
    CacheConfig.load env1 = CacheConfig.load env2 := by
  have h1 := h "ESIPIE_REDIS_URL" (by simp [cacheKeys])
  have h2 := h "ESIPIE_SPEC_CACHE_DURATION" (by simp [cacheKeys])
  have h3 := h "ESIPIE_DISABLE_CACHE" (by simp [cacheKeys])
  have h4 := h "ESIPIE_CACHE_PREFIX" (by simp [cacheKeys])
  unfold CacheConfig.load optStr optInt optBool
  rw [h1, h2, h3, h4]

/-- Aggregate construction respects equal results of the four member
constructions. -/
theorem configLoad_congr (env1 env2 : Env)
    (hA : APIConfig.load env1 = APIConfig.load env2)
    (hU : AuthConfig.load env1 = AuthConfig.load env2)
    (hG : UAConfig.load env1 = UAConfig.load env2)
    (hC : CacheConfig.load env1 = CacheConfig.load env2) :
    Config.load env1 = Config.load env2 := by
  unfold Config.load
  rw [hA, hU, hG, hC]

/-- Aggregate construction succeeds exactly when all four member
constructions succeed. -/
theorem configLoad_ok_iff (env : Env) :
    (∃ c, Config.load env = Except.ok c) ↔
      ((∃ a, APIConfig.load env = Except.ok a) ∧
       (∃ u, AuthConfig.load env = Except.ok u) ∧
       (∃ g, UAConfig.load env = Except.ok g) ∧
       (∃ c, CacheConfig.load env = Except.ok c)) := by
  rcases hA : APIConfig.load env with a | a <;>
  rcases hU : AuthConfig.load env with u | u <;>
  rcases hG : UAConfig.load env with g | g <;>
  rcases hC : CacheConfig.load env with c | c <;>
  simp [Config.load, hA, hU, hG, hC]

/-- Every attempted assignment to a UAConfig field is rejected with the
object unchanged, since every field is frozen. -/
theorem uaTrySet_rejected (c : UAConfig) (f : UAField) (v : String) :
    UAConfig.trySet c f v = SetOutcome.rejected c := by
  cases f <;> rfl

/-- Every attempted assignment to an AuthConfig field is rejected with
the object unchanged, since every field is frozen. -/
theorem authTrySet_rejected (c : AuthConfig) (f : AuthField) (v : String) :
    AuthConfig.trySet c f v = SetOutcome.rejected c := by
  cases f <;> rfl

/-! Claim theorems. -/

/-- C1: for every settings group with required fields, if any required
variable is absent or empty, construction fails with a validation error
whose report contains every missing field, not only the first.  Stated
for UAConfig over app_name, app_version and contact_email, and for
AuthConfig over sso_client_id and sso_client_secret. -/
theorem c1_required_missing_batch_report (envU envA : Env)
    (hU : getEnv true envU "ESIPIE_UA_APP_NAME" = none ∨
          getEnv true envU "ESIPIE_UA_APP_VERSION" = none ∨
          getEnv true envU "ESIPIE_UA_CONTACT_EMAIL" = none)
    (hA : getEnv true envA "ESIPIE_SSO_CLIENT_ID" = none ∨
          getEnv true envA "ESIPIE_SSO_CLIENT_SECRET" = none) :
    (∃ errs, UAConfig.load envU = Except.error errs ∧
      (getEnv true envU "ESIPIE_UA_APP_NAME" = none →
        FieldError.mk "app_name" ErrReason.missing ∈ errs) ∧
      (getEnv true envU "ESIPIE_UA_APP_VERSION" = none →
        FieldError.mk "app_version" ErrReason.missing ∈ errs) ∧
      (getEnv true envU "ESIPIE_UA_CONTACT_EMAIL" = none →
        FieldError.mk "contact_email" ErrReason.missing ∈ errs)) ∧
    (∃ errs, AuthConfig.load envA = Except.error errs ∧
      (getEnv true envA "ESIPIE_SSO_CLIENT_ID" = none →
        FieldError.mk "sso_client_id" ErrReason.missing ∈ errs) ∧
      (getEnv true envA "ESIPIE_SSO_CLIENT_SECRET" = none →
        FieldError.mk "sso_client_secret" ErrReason.missing ∈ errs)) := by
  constructor
  · rcases h1 : getEnv true envU "ESIPIE_UA_APP_NAME" with _ | a <;>
    rcases h2 : getEnv true envU "ESIPIE_UA_APP_VERSION" with _ | b <;>
    rcases h3 : getEnv true envU "ESIPIE_UA_CONTACT_EMAIL" with _ | c <;>
    simp_all [UAConfig.load, reqStr, errsOf]
  · rcases h4 : getEnv true envA "ESIPIE_SSO_CLIENT_ID" with _ | i <;>
    rcases h5 : getEnv true envA "ESIPIE_SSO_CLIENT_SECRET" with _ | s <;>
    simp_all [AuthConfig.load, reqStr, errsOf]

/-- C1 witness: with an empty environment, UAConfig reports all three
required fields missing and AuthConfig reports both, in one report. -/
theorem c1_witness :
    (getEnv true ([] : Env) "ESIPIE_UA_APP_NAME" = none ∨
     getEnv true ([] : Env) "ESIPIE_UA_APP_VERSION" = none ∨
     getEnv true ([] : Env) "ESIPIE_UA_CONTACT_EMAIL" = none) ∧
    ((∃ errs, UAConfig.load [] = Except.error errs ∧
      (getEnv true ([] : Env) "ESIPIE_UA_APP_NAME" = none →
        FieldError.mk "app_name" ErrReason.missing ∈ errs) ∧
      (getEnv true ([] : Env) "ESIPIE_UA_APP_VERSION" = none →
        FieldError.mk "app_version" ErrReason.missing ∈ errs) ∧
      (getEnv true ([] : Env) "ESIPIE_UA_CONTACT_EMAIL" = none →
        FieldError.mk "contact_email" ErrReason.missing ∈ errs)) ∧
     (∃ errs, AuthConfig.load [] = Except.error errs ∧
      (getEnv true ([] : Env) "ESIPIE_SSO_CLIENT_ID" = none →
        FieldError.mk "sso_client_id" ErrReason.missing ∈ errs) ∧
      (getEnv true ([] : Env) "ESIPIE_SSO_CLIENT_SECRET" = none →
        FieldError.mk "sso_client_secret" ErrReason.missing ∈ errs))) :=
  ⟨Or.inl rfl,
   c1_required_missing_batch_report [] [] (Or.inl rfl) (Or.inl rfl)⟩

/-- C2: when every required variable of a group is present as a
non-empty string, construction succeeds and each required field holds
the provided string verbatim.  Stated for UAConfig and AuthConfig. -/
theorem c2_required_present_verbatim (envU envA : Env) (a b c i s : String)
    (h1 : getEnv true envU "ESIPIE_UA_APP_NAME" = some a)
    (h2 : getEnv true envU "ESIPIE_UA_APP_VERSION" = some b)
    (h3 : getEnv true envU "ESIPIE_UA_CONTACT_EMAIL" = some c)
    (h4 : getEnv true envA "ESIPIE_SSO_CLIENT_ID" = some i)
    (h5 : getEnv true envA "ESIPIE_SSO_CLIENT_SECRET" = some s) :
    UAConfig.load envU = Except.ok ⟨a, b, c⟩ ∧
    (∃ u, AuthConfig.load envA = Except.ok u ∧
      u.sso_client_id = i ∧ u.sso_client_secret = s) := by
  refine ⟨?_, ?_⟩
  · simp [UAConfig.load, reqStr, h1, h2, h3]
  · refine ⟨⟨i, s, optStr envA "ESIPIE_OPENAPI_URL"
      "https://esipie.api.esi.evetech.net/openapi.json",
      optStr envA "ESIPIE_CLIENT_TENANT" "tranquility"⟩, ?_, rfl, rfl⟩
    simp [AuthConfig.load, reqStr, h4, h5]

/-- C2 witness: the spec scenario with the three UA variables set, plus
both SSO variables set, constructs with exactly those values. -/
theorem c2_witness :
    UAConfig.load [("ESIPIE_UA_APP_NAME", "TestApp"),
        ("ESIPIE_UA_APP_VERSION", "1.0.0"),
        ("ESIPIE_UA_CONTACT_EMAIL", "test@example.com")] =
      Except.ok ⟨"TestApp", "1.0.0", "test@example.com"⟩ ∧
    (∃ u, AuthConfig.load [("ESIPIE_SSO_CLIENT_ID", "test_id"),
        ("ESIPIE_SSO_CLIENT_SECRET", "test_secret")] = Except.ok u ∧
      u.sso_client_id = "test_id" ∧ u.sso_client_secret = "test_secret") :=
  c2_required_present_verbatim _ _ "TestApp" "1.0.0" "test@example.com"
    "test_id" "test_secret" rfl rfl rfl rfl rfl

/-- C3: every optional field whose variable is absent takes exactly its
documented default.  Stated over one environment in which all nine
optional variables are absent (and, so that AuthConfig constructs, both
required SSO variables are present). -/
theorem c3_optional_absent_defaults (env : Env) (i s : String)
    (hb : getEnv true env "ESIPIE_BASE_URL" = none)
    (ht : getEnv true env "ESIPIE_TIMEOUT_SECONDS" = none)
    (hc : getEnv true env "ESIPIE_COMPATIBILITY_DATE" = none)
    (ho : getEnv true env "ESIPIE_OPENAPI_URL" = none)
    (hn : getEnv true env "ESIPIE_CLIENT_TENANT" = none)
    (hr : getEnv true env "ESIPIE_REDIS_URL" = none)
    (hd : getEnv true env "ESIPIE_SPEC_CACHE_DURATION" = none)
    (hdc : getEnv true env "ESIPIE_DISABLE_CACHE" = none)
    (hp : getEnv true env "ESIPIE_CACHE_PREFIX" = none)
    (hi : getEnv true env "ESIPIE_SSO_CLIENT_ID" = some i)
    (hs : getEnv true env "ESIPIE_SSO_CLIENT_SECRET" = some s) :
    APIConfig.load env = Except.ok ⟨"https://esi.evetech.net", 10, "2025-09-26"⟩ ∧
    CacheConfig.load env = Except.ok ⟨"redis://localhost:6379/0", 3600, false, "esipie"⟩ ∧
    AuthConfig.load env = Except.ok
      ⟨i, s, "https://esipie.api.esi.evetech.net/openapi.json", "tranquility"⟩ := by
  refine ⟨?_, ?_, ?_⟩
  · simp [APIConfig.load, optStr, optInt, hb, ht, hc]
  · simp [CacheConfig.load, optStr, optInt, optBool, hr, hd, hdc, hp]
  · simp [AuthConfig.load, reqStr, optStr, hi, hs, ho, hn]

/-- C3 witness: with only the two SSO variables set, every optional
field of the three defaulted groups is its documented default. -/
theorem c3_witness :
    APIConfig.load [("ESIPIE_SSO_CLIENT_ID", "cid"), ("ESIPIE_SSO_CLIENT_SECRET", "csec")] =
      Except.ok ⟨"https://esi.evetech.net", 10, "2025-09-26"⟩ ∧
    CacheConfig.load [("ESIPIE_SSO_CLIENT_ID", "cid"), ("ESIPIE_SSO_CLIENT_SECRET", "csec")] =
      Except.ok ⟨"redis://localhost:6379/0", 3600, false, "esipie"⟩ ∧
    AuthConfig.load [("ESIPIE_SSO_CLIENT_ID", "cid"), ("ESIPIE_SSO_CLIENT_SECRET", "csec")] =
      Except.ok ⟨"cid", "csec", "https://esipie.api.esi.evetech.net/openapi.json",
        "tranquility"⟩ :=
  c3_optional_absent_defaults _ "cid" "csec"
    rfl rfl rfl rfl rfl rfl rfl rfl rfl rfl rfl

/-- C4: an optional field whose variable is present takes the provided
value after type coercion, overriding the default; integer fields parse
the string as a base-10 integer.  The first conjunct is the spec
scenario with only the timeout variable set among the API keys; the
remaining conjuncts cover every optional field of the API, Cache and
Auth groups being overridden at once. -/
theorem c4_optional_present_overrides (env1 env2 : Env)
    (ts bu ts2 cd ru ds dcs cp ci cs ou ct : String) (n m dn : Int) (b : Bool)
    (h1 : getEnv true env1 "ESIPIE_TIMEOUT_SECONDS" = some ts)
    (h2 : parseInt ts = some n)
    (h3 : getEnv true env1 "ESIPIE_BASE_URL" = none)
    (h4 : getEnv true env1 "ESIPIE_COMPATIBILITY_DATE" = none)
    (h5 : getEnv true env2 "ESIPIE_BASE_URL" = some bu)
    (h6 : getEnv true env2 "ESIPIE_TIMEOUT_SECONDS" = some ts2)
    (h7 : parseInt ts2 = some m)
    (h8 : getEnv true env2 "ESIPIE_COMPATIBILITY_DATE" = some cd)
    (h9 : getEnv true env2 "ESIPIE_REDIS_URL" = some ru)
    (h10 : getEnv true env2 "ESIPIE_SPEC_CACHE_DURATION" = some ds)
    (h11 : parseInt ds = some dn)
    (h12 : getEnv true env2 "ESIPIE_DISABLE_CACHE" = some dcs)
    (h13 : parseBool dcs = some b)
    (h14 : getEnv true env2 "ESIPIE_CACHE_PREFIX" = some cp)
    (h15 : getEnv true env2 "ESIPIE_SSO_CLIENT_ID" = some ci)
    (h16 : getEnv true env2 "ESIPIE_SSO_CLIENT_SECRET" = some cs)
    (h17 : getEnv true env2 "ESIPIE_OPENAPI_URL" = some ou)
    (h18 : getEnv true env2 "ESIPIE_CLIENT_TENANT" = some ct) :
    APIConfig.load env1 = Except.ok ⟨"https://esi.evetech.net", n, "2025-09-26"⟩ ∧
    APIConfig.load env2 = Except.ok ⟨bu, m, cd⟩ ∧
    CacheConfig.load env2 = Except.ok ⟨ru, dn, b, cp⟩ ∧
    AuthConfig.load env2 = Except.ok ⟨ci, cs, ou, ct⟩ := by
  refine ⟨?_, ?_, ?_, ?_⟩
  · simp [APIConfig.load, optStr, optInt, h1, h2, h3, h4]
  · simp [APIConfig.load, optStr, optInt, h5, h6, h7, h8]
  · simp [CacheConfig.load, optStr, optInt, optBool, h9, h10, h11, h12, h13, h14]
  · simp [AuthConfig.load, reqStr, optStr, h15, h16, h17, h18]

/-- C4 witness: with only the timeout variable set, the API group has
timeout 20 and the other fields at their defaults; with every optional
variable set, each field holds the coerced provided value. -/
theorem c4_witness :
    APIConfig.load [("ESIPIE_TIMEOUT_SECONDS", "20")] =
      Except.ok ⟨"https://esi.evetech.net", 20, "2025-09-26"⟩ ∧
    APIConfig.load [("ESIPIE_BASE_URL", "https://custom.esi.net"),
        ("ESIPIE_TIMEOUT_SECONDS", "30"), ("ESIPIE_COMPATIBILITY_DATE", "2025-10-01"),
        ("ESIPIE_REDIS_URL", "redis://remote:6379/1"),
        ("ESIPIE_SPEC_CACHE_DURATION", "7200"), ("ESIPIE_DISABLE_CACHE", "true"),
        ("ESIPIE_CACHE_PREFIX", "custom"), ("ESIPIE_SSO_CLIENT_ID", "test_id"),
        ("ESIPIE_SSO_CLIENT_SECRET", "test_secret"),
        ("ESIPIE_OPENAPI_URL", "https://custom.openapi.json"),
        ("ESIPIE_CLIENT_TENANT", "singularity")] =
      Except.ok ⟨"https://custom.esi.net", 30, "2025-10-01"⟩ ∧
    CacheConfig.load [("ESIPIE_BASE_URL", "https://custom.esi.net"),
        ("ESIPIE_TIMEOUT_SECONDS", "30"), ("ESIPIE_COMPATIBILITY_DATE", "2025-10-01"),
        ("ESIPIE_REDIS_URL", "redis://remote:6379/1"),
        ("ESIPIE_SPEC_CACHE_DURATION", "7200"), ("ESIPIE_DISABLE_CACHE", "true"),
        ("ESIPIE_CACHE_PREFIX", "custom"), ("ESIPIE_SSO_CLIENT_ID", "test_id"),
        ("ESIPIE_SSO_CLIENT_SECRET", "test_secret"),
        ("ESIPIE_OPENAPI_URL", "https://custom.openapi.json"),
        ("ESIPIE_CLIENT_TENANT", "singularity")] =
      Except.ok ⟨"redis://remote:6379/1", 7200, true, "custom"⟩ ∧
    AuthConfig.load [("ESIPIE_BASE_URL", "https://custom.esi.net"),
        ("ESIPIE_TIMEOUT_SECONDS", "30"), ("ESIPIE_COMPATIBILITY_DATE", "2025-10-01"),
        ("ESIPIE_REDIS_URL", "redis://remote:6379/1"),
        ("ESIPIE_SPEC_CACHE_DURATION", "7200"), ("ESIPIE_DISABLE_CACHE", "true"),
        ("ESIPIE_CACHE_PREFIX", "custom"), ("ESIPIE_SSO_CLIENT_ID", "test_id"),
        ("ESIPIE_SSO_CLIENT_SECRET", "test_secret"),
        ("ESIPIE_OPENAPI_URL", "https://custom.openapi.json"),
        ("ESIPIE_CLIENT_TENANT", "singularity")] =
      Except.ok ⟨"test_id", "test_secret", "https://custom.openapi.json", "singularity"⟩ :=
  c4_optional_present_overrides _ _ "20" "https://custom.esi.net" "30" "2025-10-01"
    "redis://remote:6379/1" "7200" "true" "custom" "test_id" "test_secret"
    "https://custom.openapi.json" "singularity" 20 30 7200 true
    rfl rfl rfl rfl rfl rfl rfl rfl rfl rfl rfl rfl rfl rfl rfl rfl rfl rfl

/-- C5: for the disable_cache field, a provided value whose lower-case
form is the literal true token coerces to boolean true, and one whose
lower-case form is the literal false token coerces to boolean false. -/
theorem c5_bool_coercion_cases (env1 env2 : Env) (s1 s2 : String)
    (h1 : getEnv true env1 "ESIPIE_DISABLE_CACHE" = some s1)
    (ht : lowerStr s1 = "true")
    (hd1 : getEnv true env1 "ESIPIE_SPEC_CACHE_DURATION" = none)
    (h2 : getEnv true env2 "ESIPIE_DISABLE_CACHE" = some s2)
    (hf : lowerStr s2 = "false")
    (hd2 : getEnv true env2 "ESIPIE_SPEC_CACHE_DURATION" = none) :
    parseBool s1 = some true ∧ parseBool s2 = some false ∧
    (∃ c1, CacheConfig.load env1 = Except.ok c1 ∧ c1.disable_cache = true) ∧
    (∃ c2, CacheConfig.load env2 = Except.ok c2 ∧ c2.disable_cache = false) := by
  refine ⟨?_, ?_, ?_, ?_⟩ <;>
  simp [parseBool, CacheConfig.load, optStr, optInt, optBool, h1, ht, hd1, h2, hf, hd2]

/-- C5 witness: mixed-case TRUE and FaLsE literals coerce to the two
boolean values. -/
theorem c5_witness :
    parseBool "TRUE" = some true ∧ parseBool "FaLsE" = some false ∧
    (∃ c1, CacheConfig.load [("ESIPIE_DISABLE_CACHE", "TRUE")] = Except.ok c1 ∧
      c1.disable_cache = true) ∧
    (∃ c2, CacheConfig.load [("ESIPIE_DISABLE_CACHE", "FaLsE")] = Except.ok c2 ∧
      c2.disable_cache = false) :=
  c5_bool_coercion_cases _ _ "TRUE" "FaLsE" rfl rfl rfl rfl rfl rfl

/-- C6: binding any environment variable to the empty string is treated
exactly as if the variable were absent: the effective lookup and the
construction of every settings group (and of the aggregate) are the
same as with the variable unset, so defaults apply to optional fields
and required fields are reported missing. -/
theorem c6_empty_string_is_absent (env : Env) (k key : String) :
    getEnv true (setEnv env k "") key = getEnv true (unsetEnv env k) key ∧
    UAConfig.load (setEnv env k "") = UAConfig.load (unsetEnv env k) ∧
    APIConfig.load (setEnv env k "") = APIConfig.load (unsetEnv env k) ∧
    AuthConfig.load (setEnv env k "") = AuthConfig.load (unsetEnv env k) ∧
    CacheConfig.load (setEnv env k "") = CacheConfig.load (unsetEnv env k) ∧
    Config.load (setEnv env k "") = Config.load (unsetEnv env k) := by
  have hp : ∀ key2, getEnv true (setEnv env k "") key2 = getEnv true (unsetEnv env k) key2 :=
    fun key2 => getEnv_set_empty env k key2
  have hu := uaLoad_congr _ _ (fun k2 _ => hp k2)
  have ha := apiLoad_congr _ _ (fun k2 _ => hp k2)
  have ht := authLoad_congr _ _ (fun k2 _ => hp k2)
  have hc := cacheLoad_congr _ _ (fun k2 _ => hp k2)
  exact ⟨hp key, hu, ha, ht, hc, configLoad_congr _ _ ha ht hu hc⟩

/-- C7: after construction, assignment to each frozen field (all of
UAConfig, base_url and timeout_seconds of APIConfig, all of AuthConfig,
redis_url and the cache key head of CacheConfig) is rejected with an
error, while each field not marked frozen (compatibility_date,
spec_cache_duration, disable_cache) is reassigned to the provided
value. -/
theorem c7_frozen_and_mutable_fields (u : UAConfig) (a : APIConfig) (t : AuthConfig)
    (c : CacheConfig) (s1 s2 s3 s4 s5 s6 s7 s8 s9 : String) (n1 n2 : Int) (b1 : Bool) :
    UAConfig.trySet u UAField.app_name s1 = SetOutcome.rejected u ∧
    UAConfig.trySet u UAField.app_version s2 = SetOutcome.rejected u ∧
    UAConfig.trySet u UAField.contact_email s3 = SetOutcome.rejected u ∧
    APIConfig.trySet a APIField.base_url s4 = SetOutcome.rejected a ∧
    APIConfig.trySet a APIField.timeout_seconds n1 = SetOutcome.rejected a ∧
    APIConfig.trySet a APIField.compatibility_date s5 =
      SetOutcome.assigned { a with compatibility_date := s5 } ∧
    AuthConfig.trySet t AuthField.sso_client_id s6 = SetOutcome.rejected t ∧
    AuthConfig.trySet t AuthField.sso_client_secret s7 = SetOutcome.rejected t ∧
    AuthConfig.trySet t AuthField.openapi_url s8 = SetOutcome.rejected t ∧
    AuthConfig.trySet t AuthField.client_tenant s9 = SetOutcome.rejected t ∧
    CacheConfig.trySet c CacheField.redis_url s4 = SetOutcome.rejected c ∧
    CacheConfig.trySet c CacheField.spec_cache_duration n2 =
      SetOutcome.assigned { c with spec_cache_duration := n2 } ∧
    CacheConfig.trySet c CacheField.disable_cache b1 =
      SetOutcome.assigned { c with disable_cache := b1 } ∧
    CacheConfig.trySet c CacheField.cache_prefix s9 = SetOutcome.rejected c :=
  ⟨rfl, rfl, rfl, rfl, rfl, rfl, rfl, rfl, rfl, rfl, rfl, rfl, rfl, rfl⟩

/-- The aggregate fails to construct whenever any one of its four member
groups fails to construct. -/
theorem configLoad_error_of_member (env : Env)
    (h : (∃ es, APIConfig.load env = Except.error es) ∨
         (∃ es, AuthConfig.load env = Except.error es) ∨
         (∃ es, UAConfig.load env = Except.error es) ∨
         (∃ es, CacheConfig.load env = Except.error es)) :
    ∃ e, Config.load env = Except.error e := by
  rcases hres : Config.load env with e | c
  · exact ⟨e, rfl⟩
  · exfalso
    have hok := (configLoad_ok_iff env).mp ⟨c, hres⟩
    rcases h with ⟨es, he⟩ | ⟨es, he⟩ | ⟨es, he⟩ | ⟨es, he⟩
    · rcases hok.1 with ⟨a, ha⟩
      rw [ha] at he
      exact Except.noConfusion he
    · rcases hok.2.1 with ⟨a, ha⟩
      rw [ha] at he
      exact Except.noConfusion he
    · rcases hok.2.2.1 with ⟨a, ha⟩
      rw [ha] at he
      exact Except.noConfusion he
    · rcases hok.2.2.2 with ⟨a, ha⟩
      rw [ha] at he
      exact Except.noConfusion he

/-- C8: the settings groups are independent failure domains.  UAConfig
construction depends only on the UA environment keys, so two snapshots
agreeing there construct it identically; unsetting any non-UA key (such
as a required Auth key) never changes UAConfig construction; yet a
failure of any one member group makes aggregate construction fail. -/
theorem c8_independent_failure_domains (env1 env2 env3 envA envB envC envD : Env)
    (k : String) (esA esB esC esD : List FieldError)
    (h : ∀ k2 ∈ uaKeys, getEnv true env1 k2 = getEnv true env2 k2)
    (hk : k ∉ uaKeys)
    (hA : APIConfig.load envA = Except.error esA)
    (hB : AuthConfig.load envB = Except.error esB)
    (hC : UAConfig.load envC = Except.error esC)
    (hD : CacheConfig.load envD = Except.error esD) :
    UAConfig.load env1 = UAConfig.load env2 ∧
    UAConfig.load (unsetEnv env3 k) = UAConfig.load env3 ∧
    (∃ e1, Config.load envA = Except.error e1) ∧
    (∃ e2, Config.load envB = Except.error e2) ∧
    (∃ e3, Config.load envC = Except.error e3) ∧
    (∃ e4, Config.load envD = Except.error e4) := by
  refine ⟨uaLoad_congr env1 env2 h,
    uaLoad_congr _ _ (fun k2 hk2 => getEnv_unset_ne env3 k k2 (fun e => hk (e ▸ hk2))),
    ?_, ?_, ?_, ?_⟩
  · exact configLoad_error_of_member envA (Or.inl ⟨esA, hA⟩)
  · exact configLoad_error_of_member envB (Or.inr (Or.inl ⟨esB, hB⟩))
  · exact configLoad_error_of_member envC (Or.inr (Or.inr (Or.inl ⟨esC, hC⟩)))
  · exact configLoad_error_of_member envD (Or.inr (Or.inr (Or.inr ⟨esD, hD⟩)))

/-- C8 witness: with an unset Auth key, UAConfig construction is
unchanged; and a bad timeout, missing SSO variables, missing UA
variables, or a bad cache duration each make the aggregate fail. -/
theorem c8_witness :
    UAConfig.load ([] : Env) = UAConfig.load ([] : Env) ∧
    UAConfig.load (unsetEnv [] "ESIPIE_SSO_CLIENT_ID") = UAConfig.load [] ∧
    (∃ e1, Config.load [("ESIPIE_TIMEOUT_SECONDS", "abc")] = Except.error e1) ∧
    (∃ e2, Config.load ([] : Env) = Except.error e2) ∧
    (∃ e3, Config.load ([] : Env) = Except.error e3) ∧
    (∃ e4, Config.load [("ESIPIE_SPEC_CACHE_DURATION", "abc")] = Except.error e4) :=
  c8_independent_failure_domains [] [] [] [("ESIPIE_TIMEOUT_SECONDS", "abc")] [] []
    [("ESIPIE_SPEC_CACHE_DURATION", "abc")] "ESIPIE_SSO_CLIENT_ID"
    [⟨"timeout_seconds", ErrReason.coercionFailed⟩]
    [⟨"sso_client_id", ErrReason.missing⟩, ⟨"sso_client_secret", ErrReason.missing⟩]
    [⟨"app_name", ErrReason.missing⟩, ⟨"app_version", ErrReason.missing⟩,
      ⟨"contact_email", ErrReason.missing⟩]
    [⟨"spec_cache_duration", ErrReason.coercionFailed⟩]
    (fun _ _ => rfl) (by decide) rfl rfl rfl rfl

/-- C9: construction is deterministic in the environment snapshot: two
snapshots with the same observable variable values yield the same
result for every settings group and for the aggregate, equal field
values on success and the same report on failure. -/
theorem c9_construction_deterministic (env1 env2 : Env)
    (h : ∀ key, getEnv true env1 key = getEnv true env2 key) :
    UAConfig.load env1 = UAConfig.load env2 ∧
    APIConfig.load env1 = APIConfig.load env2 ∧
    AuthConfig.load env1 = AuthConfig.load env2 ∧
    CacheConfig.load env1 = CacheConfig.load env2 ∧
    Config.load env1 = Config.load env2 := by
  have hu := uaLoad_congr _ _ (fun k2 _ => h k2)
  have ha := apiLoad_congr _ _ (fun k2 _ => h k2)
  have ht := authLoad_congr _ _ (fun k2 _ => h k2)
  have hc := cacheLoad_congr _ _ (fun k2 _ => h k2)
  exact ⟨hu, ha, ht, hc, configLoad_congr _ _ ha ht hu hc⟩

/-- C9 witness: two identical snapshots construct identical settings. -/
theorem c9_witness :
    UAConfig.load [("ESIPIE_UA_APP_NAME", "TestApp")] =
      UAConfig.load [("ESIPIE_UA_APP_NAME", "TestApp")] ∧
    APIConfig.load [("ESIPIE_UA_APP_NAME", "TestApp")] =
      APIConfig.load [("ESIPIE_UA_APP_NAME", "TestApp")] ∧
    AuthConfig.load [("ESIPIE_UA_APP_NAME", "TestApp")] =
      AuthConfig.load [("ESIPIE_UA_APP_NAME", "TestApp")] ∧
    CacheConfig.load [("ESIPIE_UA_APP_NAME", "TestApp")] =
      CacheConfig.load [("ESIPIE_UA_APP_NAME", "TestApp")] ∧
    Config.load [("ESIPIE_UA_APP_NAME", "TestApp")] =
      Config.load [("ESIPIE_UA_APP_NAME", "TestApp")] :=
  c9_construction_deterministic [("ESIPIE_UA_APP_NAME", "TestApp")]
    [("ESIPIE_UA_APP_NAME", "TestApp")] (fun _ => rfl)

/-- C10: a rejected assignment to a frozen field is atomic: after the
error, every field of the constructed object still holds exactly the
value it had at construction time.  Stated for UAConfig and AuthConfig,
whose fields are all frozen. -/
theorem c10_rejected_assignment_atomic (envU envA : Env) (u : UAConfig) (t : AuthConfig)
    (fu : UAField) (ft : AuthField) (vu vt : String)
    (hu : UAConfig.load envU = Except.ok u)
    (ht : AuthConfig.load envA = Except.ok t) :
    ∃ r1 r2, UAConfig.trySet u fu vu = SetOutcome.rejected r1 ∧
      r1.app_name = u.app_name ∧ r1.app_version = u.app_version ∧
      r1.contact_email = u.contact_email ∧
      AuthConfig.trySet t ft vt = SetOutcome.rejected r2 ∧
      r2.sso_client_id = t.sso_client_id ∧ r2.sso_client_secret = t.sso_client_secret ∧
      r2.openapi_url = t.openapi_url ∧ r2.client_tenant = t.client_tenant :=
  ⟨u, t, uaTrySet_rejected u fu vu, rfl, rfl, rfl,
    authTrySet_rejected t ft vt, rfl, rfl, rfl, rfl⟩

/-- C10 witness: concretely constructed UAConfig and AuthConfig objects
keep all their construction-time values after a rejected assignment. -/
theorem c10_witness :
    ∃ r1 r2,
      UAConfig.trySet ⟨"TestApp", "1.0.0", "test@example.com"⟩ UAField.app_name "other" =
        SetOutcome.rejected r1 ∧
      r1.app_name = (UAConfig.mk "TestApp" "1.0.0" "test@example.com").app_name ∧
      r1.app_version = (UAConfig.mk "TestApp" "1.0.0" "test@example.com").app_version ∧
      r1.contact_email = (UAConfig.mk "TestApp" "1.0.0" "test@example.com").contact_email ∧
      AuthConfig.trySet ⟨"test_id", "test_secret",
          "https://esipie.api.esi.evetech.net/openapi.json", "tranquility"⟩
        AuthField.client_tenant "other" = SetOutcome.rejected r2 ∧
      r2.sso_client_id = (AuthConfig.mk "test_id" "test_secret"
        "https://esipie.api.esi.evetech.net/openapi.json" "tranquility").sso_client_id ∧
      r2.sso_client_secret = (AuthConfig.mk "test_id" "test_secret"
        "https://esipie.api.esi.evetech.net/openapi.json" "tranquility").sso_client_secret ∧
      r2.openapi_url = (AuthConfig.mk "test_id" "test_secret"
        "https://esipie.api.esi.evetech.net/openapi.json" "tranquility").openapi_url ∧
      r2.client_tenant = (AuthConfig.mk "test_id" "test_secret"
        "https://esipie.api.esi.evetech.net/openapi.json" "tranquility").client_tenant :=
  c10_rejected_assignment_atomic
    [("ESIPIE_UA_APP_NAME", "TestApp"), ("ESIPIE_UA_APP_VERSION", "1.0.0"),
      ("ESIPIE_UA_CONTACT_EMAIL", "test@example.com")]
    [("ESIPIE_SSO_CLIENT_ID", "test_id"), ("ESIPIE_SSO_CLIENT_SECRET", "test_secret")]
    ⟨"TestApp", "1.0.0", "test@example.com"⟩
    ⟨"test_id", "test_secret", "https://esipie.api.esi.evetech.net/openapi.json",
      "tranquility"⟩
    UAField.app_name AuthField.client_tenant "other" "other" rfl rfl
